import Mathlib

/-!
Verification of the warehouse bot's shift/operation dialog and daily
aggregation logic, embedded shallowly from `src/sheets/client.py`,
`src/bot/handlers.py` and `src/bot/states.py`.

Conventions of the embedding:
* A calendar date is an `Int` day index; `format_date_dmy` is injective on
  dates, so comparing formatted date strings is modelled as comparing day
  indices.
* A Python `datetime` is a day index plus seconds since local midnight.
* A `"HH:MM"` time cell is modelled as its minutes-of-day value; an empty
  cell is `none`.  `format_time_hm` (`strftime("%H:%M")`) truncates seconds,
  i.e. takes `sec // 60`.
* Telegram ids are `Int`; the code compares them via `str(..) == str(..)`,
  and `str` is injective on ints, so this is plain equality.
* Spreadsheet rows are records with one field per column, in column order.
* Methods of `SheetsClient` are written in state-passing style
  `Store → Store × α`, one read/append/update primitive per gspread call,
  so that frame properties (which rows a method writes) are visible.
-/

namespace WarehouseBot

/-- A local timestamp: calendar day index plus seconds since local midnight
(the part of Python `datetime` the code uses). -/
structure DateTime where
  day : Int
  sec : Int
deriving DecidableEq, Repr

/-- Embeds `format_time_hm` / `strftime("%H:%M")`: minutes-of-day, seconds dropped. -/
def hmOf (d : DateTime) : Int := Int.fdiv d.sec 60

/-- Embeds `(a - b).total_seconds()` for two datetimes. -/
def diffSeconds (a b : DateTime) : Int := (a.day - b.day) * 86400 + (a.sec - b.sec)

/-- Entity `Employee` of `models/entities.py` (also one row of the «Сотрудники» sheet:
ID, Telegram_ID, Username, Display_Name, Дата_регистрации). -/
structure Employee where
  internalId : Int
  telegramId : Int
  username : Option String
  displayName : String
  registeredAt : Int
deriving DecidableEq, Repr

/-- One row of the «Смены» sheet: Дата, Сотрудник, Telegram_ID,
Время_начала, Время_окончания, Длительность_мин, Комментарий.
`none` in a time/duration field models an empty cell. -/
structure ShiftRow where
  rowDate : Int
  employeeName : String
  telegramId : Int
  timeStart : Option Int
  timeEnd : Option Int
  durationMin : Option Int
  comment : String
deriving DecidableEq, Repr

/-- One row of the «Операции» sheet: Дата, Сотрудник, Telegram_ID,
Тип_операции, Артикул, Количество, Время_начала, Время_окончания,
Длительность_мин, Доп_тип_или_коммент. -/
structure OperationRow where
  rowDate : Int
  employeeName : String
  telegramId : Int
  opType : String
  article : String
  quantity : Option Int
  timeStart : Option Int
  timeEnd : Option Int
  durationMin : Option Int
  extra : String
deriving DecidableEq, Repr

/-- The spreadsheet-backed Record Store: the three worksheets. -/
structure Store where
  employees : List Employee
  shifts : List ShiftRow
  operations : List OperationRow
deriving DecidableEq, Repr

/-- Entity `Shift` of `models/entities.py` as built by `get_shifts_for_employee_and_date`. -/
structure Shift where
  dateStr : Int
  employeeName : String
  telegramId : Int
  timeStart : Option Int
  timeEnd : Option Int
  durationMin : Int
deriving DecidableEq, Repr

/-- Embeds `SheetsClient.get_employee_by_telegram_id`: first employee row whose
Telegram_ID matches. -/
def getEmployeeByTelegramId (s : Store) (tg : Int) : Option Employee :=
  s.employees.find? (fun e => e.telegramId == tg)

/-- The loop condition of `_find_open_shift_row`: row is on `day`, belongs to
`tg` and its end-time cell is empty. -/
def shiftOpenFor (r : ShiftRow) (tg day : Int) : Bool :=
  r.rowDate == day && r.telegramId == tg && r.timeEnd == none

/-- Embeds `SheetsClient._find_open_shift_row`: index (0-based; sheet indices are
offset by 2 for the header row) of the first open shift row of `tg` on `day`. -/
def findOpenShiftIdx : List ShiftRow → Int → Int → Option Nat
  | [], _, _ => none
  | r :: rest, tg, day =>
      if shiftOpenFor r tg day then some 0
      else (findOpenShiftIdx rest tg day).map (· + 1)

/-- Embeds `SheetsClient.has_open_shift_for_today`. -/
def hasOpenShiftForToday (s : Store) (tg day : Int) : Bool :=
  (findOpenShiftIdx s.shifts tg day).isSome

/-- Embeds `SheetsClient.start_shift`: append a shift row with empty end-time,
duration and comment cells. -/
def startShiftC (s : Store) (emp : Employee) (now : DateTime) : Store × Unit :=
  ({ s with shifts := s.shifts ++
      [{ rowDate := now.day
         employeeName := emp.displayName
         telegramId := emp.telegramId
         timeStart := some (hmOf now)
         timeEnd := none
         durationMin := none
         comment := "" }] }, ())

/-- Embeds `SheetsClient.end_shift`: find today's open shift row; if none, report
`False` without writing; else compute the clamped floor-minute duration from
the stored start time (empty start treated as `now`) and update the
end-time / duration cells of that row. -/
def endShiftC (s : Store) (tg : Int) (now : DateTime) : Store × Bool :=
  match findOpenShiftIdx s.shifts tg now.day with
  | none => (s, false)
  | some i =>
    match s.shifts[i]? with
    | none => (s, false)  -- unreachable: the index returned is in range
    | some row =>
      let startHM : Int :=
        match row.timeStart with
        | some h => h
        | none => hmOf now
      -- start_time = combine(now.date(), parse_time_hm(start)); duration in
      -- floored minutes, clamped at 0
      let d : Int := Int.fdiv (now.sec - startHM * 60) 60
      let durationMin : Int := if d < 0 then 0 else d
      let nrow : ShiftRow :=
        { row with timeEnd := some (hmOf now), durationMin := some durationMin }
      ({ s with shifts := s.shifts.set i nrow }, true)

/-- Embeds `SheetsClient.get_shifts_for_employee_and_date`: filter rows by date and
Telegram_ID and convert to `Shift` entities (duration cell parsed with
fallback 0). -/
def shiftEntityOfRow (day : Int) (r : ShiftRow) : Shift :=
  { dateStr := day
    employeeName := r.employeeName
    telegramId := r.telegramId
    timeStart := r.timeStart
    timeEnd := r.timeEnd
    durationMin := r.durationMin.getD 0 }

/-- The (employee, date) row filter shared by both summary builders. -/
def shiftRowMatches (tg day : Int) (r : ShiftRow) : Bool :=
  r.rowDate == day && r.telegramId == tg

def getShiftsForEmployeeAndDate (s : Store) (tg day : Int) : List Shift :=
  (s.shifts.filter (shiftRowMatches tg day)).map (shiftEntityOfRow day)

/-- The (employee, date) operation-row filter of
`get_operations_for_employee_and_date`. -/
def opRowMatches (tg day : Int) (r : OperationRow) : Bool :=
  r.rowDate == day && r.telegramId == tg

def getOperationsForEmployeeAndDate (s : Store) (tg day : Int) : List OperationRow :=
  s.operations.filter (opRowMatches tg day)

/-! ### Daily summaries (`build_employee_daily_summary`, `build_admin_summary_for_date`) -/

/-- Operation-type constants used by the handlers and both summary folds. -/
def fbsType : String := "Сборка FBS"

def packType : String := "Упаковка"

def otherType : String := "Прочие задачи"

/-- Cell «Количество» parsed with fallback 0 (`if qty_raw not in (None, "")`). -/
def opQty (r : OperationRow) : Int := r.quantity.getD 0

/-- Cell «Длительность_мин» of an operation row parsed with fallback 0. -/
def opDur (r : OperationRow) : Int := r.durationMin.getD 0

/-- Cell «Длительность_мин» of a shift row parsed with fallback 0. -/
def shiftRowDur (r : ShiftRow) : Int := r.durationMin.getD 0

/-- The duration one `Shift` entity contributes to `total_shift_minutes` in
`build_employee_daily_summary`: the recorded duration, except that an open
shift (empty end cell) with a start time contributes the floored, clamped
elapsed minutes from its start to `now_local`. -/
def effectiveShiftDuration (day : Int) (now : DateTime) (sh : Shift) : Int :=
  if sh.timeEnd == none then
    match sh.timeStart with
    | some m =>
        -- start_dt = combine(day, parse_time_hm(start), tz=now.tz)
        let d := Int.fdiv (diffSeconds now ⟨day, m * 60⟩) 60
        if d < 0 then 0 else d
    | none => sh.durationMin
  else sh.durationMin

/-- Sum of «Количество» over operation rows of one type (the per-type
`+= qty` accumulation of the summary loops). -/
def sumQtyOfType (t : String) (rows : List OperationRow) : Int :=
  ((rows.filter (fun r => r.opType == t)).map opQty).sum

/-- Sum of «Длительность_мин» over operation rows of one type. -/
def sumDurOfType (t : String) (rows : List OperationRow) : Int :=
  ((rows.filter (fun r => r.opType == t)).map opDur).sum

/-- The dict returned by `build_employee_daily_summary` (the
`shift_ranges` strings are modelled as the underlying (start, end) cell
pairs the strings are rendered from). -/
structure DailySummary where
  day : Int
  shiftRanges : List (Option Int × Option Int)
  totalShiftMinutes : Int
  fbsUnits : Int
  fbsMinutes : Int
  packUnits : Int
  packMinutes : Int
  otherMinutes : Int
  totalOpsMinutes : Int
  residueMinutes : Int
deriving DecidableEq, Repr

/-- Embeds `SheetsClient.build_employee_daily_summary`: two reads, then a pure fold.
The shift loop's `total_shift_minutes` accumulation is the sum of the
per-shift `effectiveShiftDuration`; the operation loop's three `if/elif`
buckets are the per-type sums (an operation of any other type hits no
branch of the `if/elif` chain and is counted nowhere). -/
def buildEmployeeDailySummaryC (s : Store) (tg day : Int) (now : DateTime) :
    Store × DailySummary :=
  let shifts := getShiftsForEmployeeAndDate s tg day
  let ops := getOperationsForEmployeeAndDate s tg day
  let totalShiftMinutes := (shifts.map (effectiveShiftDuration day now)).sum
  let fbsUnits := sumQtyOfType fbsType ops
  let fbsMinutes := sumDurOfType fbsType ops
  let packUnits := sumQtyOfType packType ops
  let packMinutes := sumDurOfType packType ops
  let otherMinutes := sumDurOfType otherType ops
  let totalOpsMinutes := fbsMinutes + packMinutes + otherMinutes
  let residueMinutes := max (totalShiftMinutes - totalOpsMinutes) 0
  (s,
   { day := day
     shiftRanges := shifts.map (fun sh => (sh.timeStart, sh.timeEnd))
     totalShiftMinutes := totalShiftMinutes
     fbsUnits := fbsUnits
     fbsMinutes := fbsMinutes
     packUnits := packUnits
     packMinutes := packMinutes
     otherMinutes := otherMinutes
     totalOpsMinutes := totalOpsMinutes
     residueMinutes := residueMinutes })

/-- One per-employee accumulator of `build_admin_summary_for_date`
(`stats[tg_id_str]`). -/
structure AdminStat where
  employeeName : String
  telegramId : Int
  shiftMinutes : Int
  shiftCount : Int
  fbsUnits : Int
  fbsMinutes : Int
  packUnits : Int
  packMinutes : Int
  otherMinutes : Int
deriving DecidableEq, Repr

/-- The zero-initialised `stats` entry both loops create on first sight of an
employee. -/
def freshStat (name : String) (tg : Int) : AdminStat :=
  { employeeName := name
    telegramId := tg
    shiftMinutes := 0
    shiftCount := 0
    fbsUnits := 0
    fbsMinutes := 0
    packUnits := 0
    packMinutes := 0
    otherMinutes := 0 }

/-- Lookup in the insertion-ordered `stats` dict (keys are `str(Telegram_ID)`;
`str` is injective on ints so the key is modelled as the id itself). -/
def findStat (stats : List AdminStat) (tg : Int) : Option AdminStat :=
  stats.find? (fun st => st.telegramId == tg)

/-- In-place mutation of the dict entry with the given key. -/
def modifyEntry : List AdminStat → Int → (AdminStat → AdminStat) → List AdminStat
  | [], _, _ => []
  | st :: rest, tg, f =>
      if st.telegramId == tg then f st :: rest
      else st :: modifyEntry rest tg f

/-- The shift-loop mutation: `shift_minutes += dur; shift_count += 1`. -/
def addShiftTo (st : AdminStat) (r : ShiftRow) : AdminStat :=
  { st with shiftMinutes := st.shiftMinutes + shiftRowDur r
            shiftCount := st.shiftCount + 1 }

/-- The operation-loop mutation: the `if/elif` bucket accumulation (an
unrecognised type mutates nothing). -/
def addOpTo (st : AdminStat) (r : OperationRow) : AdminStat :=
  if r.opType == fbsType then
    { st with fbsUnits := st.fbsUnits + opQty r, fbsMinutes := st.fbsMinutes + opDur r }
  else if r.opType == packType then
    { st with packUnits := st.packUnits + opQty r, packMinutes := st.packMinutes + opDur r }
  else if r.opType == otherType then
    { st with otherMinutes := st.otherMinutes + opDur r }
  else st

/-- One iteration of the admin shift loop: skip rows of other dates,
insert a fresh entry if the key is unseen, then accumulate. -/
def processShiftRecord (day : Int) (stats : List AdminStat) (r : ShiftRow) :
    List AdminStat :=
  if r.rowDate == day then
    let stats1 :=
      if (findStat stats r.telegramId).isSome then stats
      else stats ++ [freshStat r.employeeName r.telegramId]
    modifyEntry stats1 r.telegramId (fun st => addShiftTo st r)
  else stats

/-- One iteration of the admin operation loop (the fresh entry is inserted
even when the operation type matches no bucket). -/
def processOpRecord (day : Int) (stats : List AdminStat) (r : OperationRow) :
    List AdminStat :=
  if r.rowDate == day then
    let stats1 :=
      if (findStat stats r.telegramId).isSome then stats
      else stats ++ [freshStat r.employeeName r.telegramId]
    modifyEntry stats1 r.telegramId (fun st => addOpTo st r)
  else stats

/-- The dict returned by `build_admin_summary_for_date`; `employees` is
`list(stats.values())` in key-insertion order. -/
structure AdminSummary where
  day : Int
  employees : List AdminStat
deriving DecidableEq, Repr

/-- Embeds `SheetsClient.build_admin_summary_for_date`: read both sheets, fold the
shift rows then the operation rows into the per-employee dict. -/
def buildAdminSummaryForDateC (s : Store) (day : Int) : Store × AdminSummary :=
  let stats1 := s.shifts.foldl (processShiftRecord day) []
  let stats2 := s.operations.foldl (processOpRecord day) stats1
  (s, { day := day, employees := stats2 })

/-! ### Dialog engine (`bot/states.py`, `bot/handlers.py`) -/

/-- The aiogram FSM states of `bot/states.py` (`StartStates` and
`OperationStates` merged into one type; `none` at the session level is the
absent / Idle state). -/
inductive DialogState where
  | waitingName
  | waitingArticle
  | waitingQuantity
  | waitingPackingType
  | waitingOtherTaskType
  | waitingFinish
deriving DecidableEq, Repr

/-- The FSM data dict: each key the handlers ever pass to `update_data`. -/
structure SessionData where
  operationType : Option String := none
  employeeTgId : Option Int := none
  article : Option String := none
  quantity : Option Int := none
  startTimeIso : Option DateTime := none
  otherTaskType : Option String := none
deriving DecidableEq, Repr

/-- One per-user aiogram `FSMContext`: current state plus data dict. -/
structure Session where
  state : Option DialogState := none
  data : SessionData := {}
deriving DecidableEq, Repr

/-- Embeds `state.clear()`: drops both the state and the data dict. -/
def clearedSession : Session := {}

/-- Modelled from the spec: `utils/texts.py` is absent from the sources; the
finish / cancel callback tokens are distinct reserved constants and only
their identity is used by the router filters. -/
def cbFinishOperation : String := "op_finish"

/-- Modelled from the spec: the reserved cancel callback token (see
`cbFinishOperation`). -/
def cbCancelOperation : String := "op_cancel"

/-- Python `str.strip()`: drop leading and trailing whitespace (written over
the character list so that it reduces in the kernel). -/
def pyStrip (s : String) : String :=
  ⟨((s.data.dropWhile Char.isWhitespace).reverse.dropWhile Char.isWhitespace).reverse⟩

/-- Bool test that `p` is a leading piece of `s` (`str.startswith`). -/
def pyStartsWith (s p : String) : Bool := p.data.isPrefixOf s.data

/-- First `n` characters removed (`s[n:]` / `String.drop`). -/
def pyDrop (s : String) (n : Nat) : String := ⟨s.data.drop n⟩

/-- Python `int(text)`: optional sign followed by at least one digit; anything
else raises, modelled as `none`. -/
def parseIntPy (s : String) : Option Int :=
  let s := pyStrip s
  let core := if pyStartsWith s "-" || pyStartsWith s "+" then pyDrop s 1 else s
  if core.length > 0 && core.data.all Char.isDigit then
    let n : Nat := core.data.foldl (fun acc c => acc * 10 + (c.toNat - 48)) 0
    if pyStartsWith s "-" then some (-(n : Int)) else some (n : Int)
  else none

/-- Embeds `_check_can_start_operation`: registered employee, an open shift today,
and no dialog in progress (`state.get_state() is None`). -/
def checkCanStartOperation (s : Store) (sess : Session) (tg : Int) (now : DateTime) :
    Option Employee :=
  match getEmployeeByTelegramId s tg with
  | none => none
  | some emp =>
      if !(hasOpenShiftForToday s emp.telegramId now.day) then none
      else if sess.state != none then none
      else some emp

/-- Embeds `start_fbs_operation` (the «Сборка FBS» menu button): on guard failure the
session is untouched; otherwise enter `waiting_article` recording the
operation type and employee id. -/
def startFbsOperation (s : Store) (sess : Session) (tg : Int) (now : DateTime) :
    Session :=
  match checkCanStartOperation s sess tg now with
  | none => sess
  | some emp =>
      { state := some .waitingArticle
        data := { sess.data with
                    operationType := some fbsType
                    employeeTgId := some emp.telegramId } }

/-- Embeds `process_article` (any text in `waiting_article`): reject empty input,
else record the article and advance to `waiting_quantity`. -/
def processArticle (sess : Session) (text : String) : Session :=
  let article := pyStrip text
  if article == "" then sess
  else
    { state := some .waitingQuantity
      data := { sess.data with article := some article } }

/-- Embeds `process_quantity` (any text in `waiting_quantity`): `int(text)` must
parse and be strictly positive (`if qty <= 0: raise ValueError`), otherwise
the input is rejected and the session is unchanged; on success record the
quantity, timestamp the start and advance to `waiting_finish`. -/
def processQuantity (sess : Session) (text : String) (now : DateTime) : Session :=
  match parseIntPy (pyStrip text) with
  | none => sess
  | some qty =>
      if qty ≤ 0 then sess
      else
        { state := some .waitingFinish
          data := { sess.data with
                      quantity := some qty
                      startTimeIso := some now } }

/-- Embeds `other_task_chosen` (an `other_task:` callback in
`waiting_other_task_type`): record the subtype, timestamp the start and
advance to `waiting_finish`. -/
def otherTaskChosen (sess : Session) (taskType : String) (now : DateTime) : Session :=
  { state := some .waitingFinish
    data := { sess.data with
                otherTaskType := some taskType
                startTimeIso := some now } }

/-- Embeds `SheetsClient.append_operation`: the single committed row (duration =
floored minutes between the two timestamps, clamped at 0; an absent quantity
is an empty cell). -/
def appendOperationRow (emp : Employee) (opType : String) (dateStr : Int)
    (article : String) (quantity : Option Int) (timeStart timeEnd : DateTime)
    (extra : String) : OperationRow :=
  let d := Int.fdiv (diffSeconds timeEnd timeStart) 60
  let durationMin := if d < 0 then 0 else d
  { rowDate := dateStr
    employeeName := emp.displayName
    telegramId := emp.telegramId
    opType := opType
    article := article
    quantity := quantity
    timeStart := some (hmOf timeStart)
    timeEnd := some (hmOf timeEnd)
    durationMin := some durationMin
    extra := extra }

def appendOperationC (s : Store) (emp : Employee) (opType : String) (dateStr : Int)
    (article : String) (quantity : Option Int) (timeStart timeEnd : DateTime)
    (extra : String) : Store :=
  { s with operations :=
      s.operations ++ [appendOperationRow emp opType dateStr article quantity
        timeStart timeEnd extra] }

/-- What `finish_operation` reports back to the user. -/
inductive FinishOutcome where
  | noStartData
  | employeeMissing
  | commitError
  | success
deriving DecidableEq, Repr

/-- Python truthiness of `data.get("employee_tg_id")` (`None` and `0` are
falsy). -/
def truthyTgId : Option Int → Bool
  | none => false
  | some t => t != 0

/-- Embeds `finish_operation` (the «✅ Закончил» callback in `waiting_finish`).
`appendOk` is the fate of the one `append_operation` call: `false` models the
store raising, in which case no row is appended.  On every path the session
is cleared and the store is appended to at most once. -/
def finishOperation (appendOk : Bool) (s : Store) (sess : Session) (now : DateTime) :
    Store × Session × FinishOutcome :=
  let d := sess.data
  let opType := d.operationType.getD "Операция"
  let article := d.article.getD ""
  match d.startTimeIso with
  | none => (s, clearedSession, .noStartData)
  | some startTime =>
      if !(truthyTgId d.employeeTgId) then (s, clearedSession, .noStartData)
      else
        match getEmployeeByTelegramId s (d.employeeTgId.getD 0) with
        | none => (s, clearedSession, .employeeMissing)
        | some emp =>
            if appendOk then
              let extra := if opType == otherType then d.otherTaskType.getD "" else ""
              (appendOperationC s emp opType startTime.day article d.quantity
                 startTime now extra,
               clearedSession, .success)
            else (s, clearedSession, .commitError)

/-- The router's callback-query dispatch, in registration order:
`other_task_chosen` (state `waiting_other_task_type`, data starting with
`other_task:`), `finish_operation` (state `waiting_finish`, finish token),
`cancel_operation` (state `waiting_finish`, cancel token — `state.clear()`).
A callback matching no filter is not handled: nothing changes. -/
def dispatchCallback (appendOk : Bool) (s : Store) (sess : Session)
    (cbdata : String) (now : DateTime) : Store × Session :=
  if sess.state == some .waitingOtherTaskType && pyStartsWith cbdata "other_task:" then
    (s, otherTaskChosen sess (pyDrop cbdata 11) now)
  else if sess.state == some .waitingFinish && cbdata == cbFinishOperation then
    let r := finishOperation appendOk s sess now
    (r.1, r.2.1)
  else if sess.state == some .waitingFinish && cbdata == cbCancelOperation then
    (s, clearedSession)
  else (s, sess)

/-! ### Shift start/end events (`start_shift` / `end_shift` handlers) -/

/-- The `start_shift` handler's store effect: unregistered users and users
with an open shift today write nothing; otherwise one open row is appended. -/
def handlerStartShift (s : Store) (tg : Int) (now : DateTime) : Store :=
  match getEmployeeByTelegramId s tg with
  | none => s
  | some emp =>
      if hasOpenShiftForToday s emp.telegramId now.day then s
      else (startShiftC s emp now).1

/-- The `end_shift` handler's store effect. -/
def handlerEndShift (s : Store) (tg : Int) (now : DateTime) : Store :=
  match getEmployeeByTelegramId s tg with
  | none => s
  | some emp => (endShiftC s emp.telegramId now).1

/-- One start-shift or end-shift button press. -/
inductive ShiftEvent where
  | startShift (tg : Int) (now : DateTime)
  | endShift (tg : Int) (now : DateTime)
deriving DecidableEq, Repr

def stepShiftEvent (s : Store) : ShiftEvent → Store
  | .startShift tg now => handlerStartShift s tg now
  | .endShift tg now => handlerEndShift s tg now

def runShiftEvents (s : Store) (events : List ShiftEvent) : Store :=
  events.foldl stepShiftEvent s

/-- Number of open shift rows of employee `tg` dated `day`. -/
def openShiftCount (s : Store) (tg day : Int) : Nat :=
  s.shifts.countP (shiftOpenFor · tg day)

/-- Number of open shift rows of employee `tg` across all dates. -/
def totalOpenShifts (s : Store) (tg : Int) : Nat :=
  s.shifts.countP (fun r => r.telegramId == tg && r.timeEnd == none)

/-! ### Specification-side helpers used to characterise the folds -/

/-- Sum of the recorded «Длительность_мин» cells of a list of shift rows. -/
def sumShiftDur (rows : List ShiftRow) : Int := (rows.map shiftRowDur).sum

/-- Per-key replay of the admin shift loop: what the `stats` entry of one
employee becomes after their matching shift rows are folded in. -/
def applyShiftRows : Option AdminStat → List ShiftRow → Option AdminStat
  | o, [] => o
  | o, r :: rs =>
      applyShiftRows (some (addShiftTo (o.getD (freshStat r.employeeName r.telegramId)) r)) rs

/-- Per-key replay of the admin operation loop. -/
def applyOpRows : Option AdminStat → List OperationRow → Option AdminStat
  | o, [] => o
  | o, r :: rs =>
      applyOpRows (some (addOpTo (o.getD (freshStat r.employeeName r.telegramId)) r)) rs

/-! ### Theorems -/

/-- C10: both summary operations are read-only on the Record Store — the
store they thread through is returned unchanged, so in particular the elapsed
duration computed for an open shift is never written back to any row. -/
theorem C10_summaries_read_only (s : Store) (tg day d2 : Int) (now : DateTime) :
    (buildEmployeeDailySummaryC s tg day now).1 = s ∧
    (buildAdminSummaryForDateC s d2).1 = s :=
  ⟨rfl, rfl⟩

/-- C2: in every per-employee daily summary, `residue_minutes` equals
`max(total_shift_minutes - total_operation_minutes, 0)` and in particular is
never negative. -/
theorem C2_residue_clamped (s : Store) (tg day : Int) (now : DateTime) :
    (buildEmployeeDailySummaryC s tg day now).2.residueMinutes
      = max ((buildEmployeeDailySummaryC s tg day now).2.totalShiftMinutes
              - (buildEmployeeDailySummaryC s tg day now).2.totalOpsMinutes) 0 ∧
    0 ≤ (buildEmployeeDailySummaryC s tg day now).2.residueMinutes := by
  refine ⟨rfl, ?_⟩
  simp [buildEmployeeDailySummaryC]

/-- C9: closing a shift when the employee has no open shift today is a no-op:
`end_shift` returns `False` and leaves every row of the store untouched. -/
theorem C9_end_shift_noop (s : Store) (tg : Int) (now : DateTime)
    (h : hasOpenShiftForToday s tg now.day = false) :
    endShiftC s tg now = (s, false) := by
  unfold hasOpenShiftForToday at h
  unfold endShiftC
  rcases hfind : findOpenShiftIdx s.shifts tg now.day with _ | i
  · rfl
  · rw [hfind] at h
    simp at h

/-- Witness for C9 at a store holding one already-closed shift row. -/
theorem C9_end_shift_noop_witness :
    endShiftC ⟨[], [⟨0, "A", 5, some 540, some 600, some 60, ""⟩], []⟩ 5 ⟨0, 39000⟩
      = (⟨[], [⟨0, "A", 5, some 540, some 600, some 60, ""⟩], []⟩, false) :=
  C9_end_shift_noop ⟨[], [⟨0, "A", 5, some 540, some 600, some 60, ""⟩], []⟩ 5
    ⟨0, 39000⟩ (by decide)

/-- C3: a shift row with a start time and an empty end cell contributes the
floored, clamped minutes elapsed from its start to `now_local` to
`total_shift_minutes`, not zero: prepending such a row to the store adds
exactly that amount to the summary total. -/
theorem C3_open_shift_contributes_elapsed (s : Store) (tg day : Int)
    (now : DateTime) (r : ShiftRow) (m : Int) (hd : r.rowDate = day)
    (ht : r.telegramId = tg) (he : r.timeEnd = none) (hs : r.timeStart = some m) :
    (buildEmployeeDailySummaryC { s with shifts := r :: s.shifts } tg day
        now).2.totalShiftMinutes
      = max (Int.fdiv (diffSeconds now ⟨day, m * 60⟩) 60) 0
        + (buildEmployeeDailySummaryC s tg day now).2.totalShiftMinutes := by
  have hmatch : shiftRowMatches tg day r = true := by
    simp [shiftRowMatches, hd, ht]
  have heff : effectiveShiftDuration day now (shiftEntityOfRow day r)
      = max (Int.fdiv (diffSeconds now ⟨day, m * 60⟩) 60) 0 := by
    simp only [effectiveShiftDuration, shiftEntityOfRow, he, hs]
    norm_num
    omega
  simp [buildEmployeeDailySummaryC, getShiftsForEmployeeAndDate,
    List.filter_cons, hmatch, heff]

/-- Witness for C3: a shift opened at 09:00 seen at now = 10:00 contributes
60 minutes. -/
theorem C3_open_shift_contributes_elapsed_witness :
    (buildEmployeeDailySummaryC ⟨[], [⟨0, "A", 1, some 540, none, none, ""⟩], []⟩
        1 0 ⟨0, 36000⟩).2.totalShiftMinutes
      = max (Int.fdiv (diffSeconds ⟨0, 36000⟩ ⟨0, 540 * 60⟩) 60) 0
        + (buildEmployeeDailySummaryC ⟨[], [], []⟩ 1 0 ⟨0, 36000⟩).2.totalShiftMinutes :=
  C3_open_shift_contributes_elapsed ⟨[], [], []⟩ 1 0 ⟨0, 36000⟩
    ⟨0, "A", 1, some 540, none, none, ""⟩ 540 rfl rfl rfl rfl

/-- C8: when the append of the composite operation record raises on the
terminal dialog step, `finish_operation` still clears the session, reports
the failure, and leaves the store untouched (no retry, no partial write). -/
theorem C8_commit_failure_clears_session (s : Store) (sess : Session)
    (now t0 : DateTime) (tg : Int)
    (hst : sess.data.startTimeIso = some t0)
    (htg : sess.data.employeeTgId = some tg) (htg0 : tg ≠ 0)
    (hemp : (getEmployeeByTelegramId s tg).isSome = true) :
    finishOperation false s sess now = (s, clearedSession, .commitError) := by
  rcases Option.isSome_iff_exists.mp hemp with ⟨emp, hempEq⟩
  have htruthy : truthyTgId (some tg) = true := by
    simp [truthyTgId, htg0]
  simp [finishOperation, hst, htg, htruthy, hempEq]

/-- Witness for C8: a fully-populated FBS dialog session whose commit fails. -/
theorem C8_commit_failure_clears_session_witness :
    finishOperation false ⟨[⟨1, 42, none, "A", 0⟩], [], []⟩
        ⟨some .waitingFinish,
         { operationType := some fbsType, employeeTgId := some 42,
           article := some "X", quantity := some 5,
           startTimeIso := some ⟨0, 32400⟩ }⟩ ⟨0, 33000⟩
      = (⟨[⟨1, 42, none, "A", 0⟩], [], []⟩, clearedSession, .commitError) :=
  C8_commit_failure_clears_session ⟨[⟨1, 42, none, "A", 0⟩], [], []⟩
    ⟨some .waitingFinish,
     { operationType := some fbsType, employeeTgId := some 42,
       article := some "X", quantity := some 5,
       startTimeIso := some ⟨0, 32400⟩ }⟩ ⟨0, 33000⟩ ⟨0, 32400⟩ 42
    rfl rfl (by decide) (by decide)

/-- C7 counterexample: entering the quantity `0` in the dialog is rejected —
`process_quantity` raises `ValueError` for `qty <= 0`, so the session does
not advance and no quantity is recorded, contradicting the claim that 0 is
accepted as valid dialog input. -/
theorem C7_counterexample_zero_rejected :
    processQuantity
        ⟨some .waitingQuantity,
         { operationType := some fbsType, employeeTgId := some 42,
           article := some "X" }⟩ "0" ⟨0, 32400⟩
      = ⟨some .waitingQuantity,
         { operationType := some fbsType, employeeTgId := some 42,
           article := some "X" }⟩ := by
  decide

/-- C7 amended: the dialog accepts only strictly positive quantities — an
input of `0` is rejected and leaves the session unchanged — while the store
layer (`append_operation`) does preserve a present quantity, including 0, as
a value distinct from the absent/empty cell. -/
theorem C7_zero_quantity (sess : Session) (now : DateTime) (emp : Employee)
    (opType : String) (dateStr : Int) (article : String) (ts te : DateTime)
    (extra : String) :
    processQuantity sess "0" now = sess ∧
    (appendOperationRow emp opType dateStr article (some 0) ts te extra).quantity
      = some 0 ∧
    (appendOperationRow emp opType dateStr article none ts te extra).quantity
      = none ∧
    (some 0 : Option Int) ≠ none := by
  refine ⟨?_, rfl, rfl, by decide⟩
  have h0 : parseIntPy (pyStrip "0") = some 0 := by decide
  simp [processQuantity, h0]

/-- C6 counterexample: a Cancel callback received at the awaiting-article step
is matched by no router handler, so the session survives untouched — the
dialog is not returned to Idle and the partial fields remain. -/
theorem C6_counterexample_cancel_ignored_midway :
    dispatchCallback true ⟨[], [], []⟩
        ⟨some .waitingArticle,
         { operationType := some fbsType, employeeTgId := some 42 }⟩
        cbCancelOperation ⟨0, 32400⟩
      = (⟨[], [], []⟩,
         ⟨some .waitingArticle,
          { operationType := some fbsType, employeeTgId := some 42 }⟩) := by
  decide

/-- C6 amended: only at the awaiting-finish step is the Cancel token handled;
there it clears the whole session (returning it to Idle with no data and
writing no Operation row), so that a subsequent add-operation trigger starts
a fresh first step whose only fields are the freshly-set operation type and
employee id. -/
theorem C6_cancel_at_finish_clears (s s2 : Store) (sess : Session)
    (now now2 : DateTime) (appendOk : Bool) (tg : Int) (emp : Employee)
    (hstate : sess.state = some .waitingFinish)
    (hemp : getEmployeeByTelegramId s2 tg = some emp)
    (hshift : hasOpenShiftForToday s2 emp.telegramId now2.day = true) :
    dispatchCallback appendOk s sess cbCancelOperation now = (s, clearedSession) ∧
    startFbsOperation s2 clearedSession tg now2
      = ⟨some .waitingArticle,
         { operationType := some fbsType, employeeTgId := some emp.telegramId }⟩ := by
  constructor
  · simp [dispatchCallback, hstate, cbCancelOperation, cbFinishOperation]
  · simp [startFbsOperation, checkCanStartOperation, hemp, hshift, clearedSession]

/-- Witness for C6: concrete store with a registered employee and an open
shift; cancel at awaiting-finish then restart. -/
theorem C6_cancel_at_finish_clears_witness :
    dispatchCallback true ⟨[], [], []⟩
        ⟨some .waitingFinish,
         { operationType := some fbsType, employeeTgId := some 42,
           article := some "X", quantity := some 5,
           startTimeIso := some ⟨0, 32400⟩ }⟩ cbCancelOperation ⟨0, 33000⟩
      = (⟨[], [], []⟩, clearedSession) ∧
    startFbsOperation
        ⟨[⟨1, 42, none, "A", 0⟩], [⟨0, "A", 42, some 540, none, none, ""⟩], []⟩
        clearedSession 42 ⟨0, 34000⟩
      = ⟨some .waitingArticle,
         { operationType := some fbsType, employeeTgId := some 42 }⟩ :=
  C6_cancel_at_finish_clears ⟨[], [], []⟩
    ⟨[⟨1, 42, none, "A", 0⟩], [⟨0, "A", 42, some 540, none, none, ""⟩], []⟩
    ⟨some .waitingFinish,
     { operationType := some fbsType, employeeTgId := some 42,
       article := some "X", quantity := some 5,
       startTimeIso := some ⟨0, 32400⟩ }⟩ ⟨0, 33000⟩ ⟨0, 34000⟩ true 42
    ⟨1, 42, none, "A", 0⟩ rfl (by decide) (by decide)

/-- The three named per-type accumulations together count exactly the
operations whose type is one of the three recognised constants. -/
theorem sumDur_three_types (rows : List OperationRow) :
    sumDurOfType fbsType rows + sumDurOfType packType rows + sumDurOfType otherType rows
      = ((rows.filter (fun r =>
            r.opType == fbsType || r.opType == packType || r.opType == otherType)).map
          opDur).sum := by
  induction rows with
  | nil => simp [sumDurOfType]
  | cons r rs ih =>
    by_cases h1 : r.opType = fbsType
    · simp [sumDurOfType, List.filter_cons, h1, fbsType, packType, otherType] at ih ⊢
      omega
    · by_cases h2 : r.opType = packType
      · simp [sumDurOfType, List.filter_cons, h1, h2, fbsType, packType, otherType] at ih ⊢
        omega
      · by_cases h3 : r.opType = otherType
        · simp [sumDurOfType, List.filter_cons, h1, h2, h3, fbsType, packType,
            otherType] at ih ⊢
          omega
        · simp [sumDurOfType, List.filter_cons, h1, h2, h3] at ih ⊢
          omega

/-- C5 counterexample: an operation of the unrecognised type «Погрузка» with
10 recorded minutes hits no bucket — `total_ops_minutes` is 0 while the sum
of all operation durations is 10, so bucket minutes do not add up to all
operation minutes. -/
theorem C5_counterexample_unknown_type_dropped :
    (buildEmployeeDailySummaryC
        ⟨[], [], [⟨0, "A", 1, "Погрузка", "", none, some 540, some 600, some 10, ""⟩]⟩
        1 0 ⟨0, 36000⟩).2.totalOpsMinutes
      ≠ ((getOperationsForEmployeeAndDate
            ⟨[], [], [⟨0, "A", 1, "Погрузка", "", none, some 540, some 600, some 10, ""⟩]⟩
            1 0).map opDur).sum ∧
    (buildEmployeeDailySummaryC
        ⟨[], [], [⟨0, "A", 1, "Погрузка", "", none, some 540, some 600, some 10, ""⟩]⟩
        1 0 ⟨0, 36000⟩).2.totalOpsMinutes = 0 := by
  constructor
  · decide
  · decide

/-- C5 amended: the daily-summary fold has no catch-all bucket — an operation
whose type is none of the three named constants is counted in no bucket, so
`total_ops_minutes` equals the duration sum of the recognised-type operations
only. -/
theorem C5_total_ops_counts_recognised_types (s : Store) (tg day : Int)
    (now : DateTime) :
    (buildEmployeeDailySummaryC s tg day now).2.totalOpsMinutes
      = (((getOperationsForEmployeeAndDate s tg day).filter (fun r =>
            r.opType == fbsType || r.opType == packType || r.opType == otherType)).map
          opDur).sum := by
  have h := sumDur_three_types (getOperationsForEmployeeAndDate s tg day)
  simpa [buildEmployeeDailySummaryC] using h

/-- A failed search of `_find_open_shift_row` means no row matches the
open-shift condition. -/
theorem findOpenShiftIdx_none_countP (l : List ShiftRow) (tg day : Int)
    (h : findOpenShiftIdx l tg day = none) :
    l.countP (shiftOpenFor · tg day) = 0 := by
  induction l with
  | nil => simp
  | cons r rest ih =>
    by_cases hr : shiftOpenFor r tg day
    · rw [findOpenShiftIdx, if_pos hr] at h
      simp at h
    · rw [findOpenShiftIdx, if_neg hr] at h
      rcases hfind : findOpenShiftIdx rest tg day with _ | j
      · simp [List.countP_cons, hr, ih hfind]
      · rw [hfind] at h
        simp at h

/-- A successful search of `_find_open_shift_row` returns an in-range index. -/
theorem findOpenShiftIdx_lt (l : List ShiftRow) (tg day : Int) (i : Nat)
    (h : findOpenShiftIdx l tg day = some i) : i < l.length := by
  induction l generalizing i with
  | nil => simp [findOpenShiftIdx] at h
  | cons r rest ih =>
    by_cases hr : shiftOpenFor r tg day
    · rw [findOpenShiftIdx, if_pos hr] at h
      simp at h
      simp [List.length_cons]
      omega
    · rw [findOpenShiftIdx, if_neg hr] at h
      rcases hfind : findOpenShiftIdx rest tg day with _ | j
      · rw [hfind] at h
        simp at h
      · rw [hfind] at h
        simp at h
        have := ih j hfind
        simp [List.length_cons]
        omega

/-- A row whose end-time cell has just been written is not open. -/
theorem shiftOpenFor_closed (r : ShiftRow) (v : Int) (dm : Option Int)
    (tg day : Int) :
    shiftOpenFor { r with timeEnd := some v, durationMin := dm } tg day = false := by
  simp [shiftOpenFor]

/-- One start-shift or end-shift event preserves the per-(employee, date)
open-shift bound. -/
theorem stepShiftEvent_preserves_open_bound (s : Store) (e : ShiftEvent)
    (h : ∀ tg day, openShiftCount s tg day ≤ 1) (tg day : Int) :
    openShiftCount (stepShiftEvent s e) tg day ≤ 1 := by
  cases e with
  | startShift tg0 now =>
    simp only [stepShiftEvent, handlerStartShift]
    rcases hemp : getEmployeeByTelegramId s tg0 with _ | emp
    · exact h tg day
    · by_cases hop : hasOpenShiftForToday s emp.telegramId now.day
      · simp only [hop, ite_true]
        exact h tg day
      · simp only [hop, Bool.false_eq_true, ite_false, startShiftC, openShiftCount,
          List.countP_append]
        by_cases hmatch : shiftOpenFor
            ⟨now.day, emp.displayName, emp.telegramId, some (hmOf now), none, none, ""⟩
            tg day
        · have hdt : now.day = day ∧ emp.telegramId = tg := by
            simpa [shiftOpenFor] using hmatch
          have hzero : s.shifts.countP (shiftOpenFor · tg day) = 0 := by
            have hfind : findOpenShiftIdx s.shifts emp.telegramId now.day = none := by
              rcases hf : findOpenShiftIdx s.shifts emp.telegramId now.day with _ | j
              · rfl
              · exact absurd (by simp [hasOpenShiftForToday, hf]) hop
            rw [← hdt.1, ← hdt.2]
            exact findOpenShiftIdx_none_countP _ _ _ hfind
          simp [openShiftCount, List.countP_cons, hmatch, hzero]
        · have := h tg day
          simp only [openShiftCount] at this
          simp [List.countP_cons, hmatch, this]
  | endShift tg0 now =>
    simp only [stepShiftEvent, handlerEndShift]
    rcases hemp : getEmployeeByTelegramId s tg0 with _ | emp
    · exact h tg day
    · rcases hfind : findOpenShiftIdx s.shifts emp.telegramId now.day with _ | i
      · simp only [endShiftC, hfind]
        exact h tg day
      · have hlt := findOpenShiftIdx_lt _ _ _ _ hfind
        simp only [endShiftC, hfind, List.getElem?_eq_getElem hlt, openShiftCount]
        rw [List.countP_set _ _ _ _ hlt]
        have hb := h tg day
        simp only [openShiftCount] at hb
        by_cases hcur : shiftOpenFor s.shifts[i] tg day
        · simp only [shiftOpenFor_closed, hcur, Bool.false_eq_true, if_false, if_true,
            ite_true, ite_false]
          omega
        · simp only [shiftOpenFor_closed, hcur, Bool.false_eq_true, if_false,
            ite_false]
          omega

/-- C1 counterexample: with a shift left open on day 0, the per-date guard of
`start_shift` does not see it on day 1, and a second open row is appended —
two open Shift rows exist simultaneously for one employee. -/
theorem C1_counterexample_two_open_rows :
    totalOpenShifts
        (runShiftEvents ⟨[⟨1, 42, none, "A", 0⟩], [], []⟩
          [.startShift 42 ⟨0, 32400⟩, .startShift 42 ⟨1, 32400⟩]) 42 = 2 := by
  decide

/-- C1 amended: the guard is per-date — over every sequence of start/end
events, each employee has at most one open Shift row per date (starting is
rejected only when a shift is already open on the current date). -/
theorem C1_at_most_one_open_shift_per_date (events : List ShiftEvent) (s : Store)
    (h : ∀ tg day, openShiftCount s tg day ≤ 1) (tg day : Int) :
    openShiftCount (runShiftEvents s events) tg day ≤ 1 := by
  induction events generalizing s with
  | nil => exact h tg day
  | cons e rest ih =>
    simp only [runShiftEvents, List.foldl_cons]
    exact ih (stepShiftEvent s e)
      (fun tg2 day2 => stepShiftEvent_preserves_open_bound s e h tg2 day2)

/-- Witness for C1 at a same-day start / start / end sequence from an empty
shift sheet. -/
theorem C1_at_most_one_open_shift_per_date_witness :
    openShiftCount
        (runShiftEvents ⟨[⟨1, 42, none, "A", 0⟩], [], []⟩
          [.startShift 42 ⟨0, 32400⟩, .startShift 42 ⟨0, 33000⟩,
           .endShift 42 ⟨0, 36000⟩]) 42 0 ≤ 1 :=
  C1_at_most_one_open_shift_per_date
    [.startShift 42 ⟨0, 32400⟩, .startShift 42 ⟨0, 33000⟩, .endShift 42 ⟨0, 36000⟩]
    ⟨[⟨1, 42, none, "A", 0⟩], [], []⟩
    (fun tg day => by simp [openShiftCount]) 42 0

/-! ### Relating the admin fold to the per-employee fold (claim C4) -/

theorem addShiftTo_telegramId (st : AdminStat) (r : ShiftRow) :
    (addShiftTo st r).telegramId = st.telegramId := rfl

theorem addOpTo_telegramId (st : AdminStat) (r : OperationRow) :
    (addOpTo st r).telegramId = st.telegramId := by
  unfold addOpTo
  split
  · rfl
  · split
    · rfl
    · split
      · rfl
      · rfl

/-- Looking up the mutated key after `modifyEntry` sees the mutation. -/
theorem findStat_modifyEntry_self (stats : List AdminStat) (tg : Int)
    (f : AdminStat → AdminStat) (hf : ∀ x, (f x).telegramId = x.telegramId) :
    findStat (modifyEntry stats tg f) tg = (findStat stats tg).map f := by
  induction stats with
  | nil => simp [findStat, modifyEntry]
  | cons st rest ih =>
    by_cases hst : (st.telegramId == tg) = true
    · have hfst : ((f st).telegramId == tg) = true := by rw [hf st]; exact hst
      simp only [modifyEntry, hst, ite_true]
      unfold findStat
      simp [List.find?, hfst, hst]
    · have hstf : (st.telegramId == tg) = false := by simpa using hst
      have hfstf : ((f st).telegramId == tg) = false := by rw [hf st]; exact hstf
      simp only [modifyEntry, hstf, Bool.false_eq_true, ite_false]
      unfold findStat at ih ⊢
      simp [List.find?, hstf, ih]

/-- Looking up any other key after `modifyEntry` sees nothing. -/
theorem findStat_modifyEntry_other (stats : List AdminStat) (tg tg2 : Int)
    (f : AdminStat → AdminStat) (hf : ∀ x, (f x).telegramId = x.telegramId)
    (hne : tg2 ≠ tg) :
    findStat (modifyEntry stats tg f) tg2 = findStat stats tg2 := by
  induction stats with
  | nil => simp [findStat, modifyEntry]
  | cons st rest ih =>
    by_cases hst : (st.telegramId == tg) = true
    · have h1 : st.telegramId = tg := by simpa using hst
      have h2 : ((f st).telegramId == tg2) = false := by
        rw [hf st, h1]
        simpa using (Ne.symm hne)
      have h3 : (st.telegramId == tg2) = false := by
        rw [h1]
        simpa using (Ne.symm hne)
      simp only [modifyEntry, hst, ite_true]
      unfold findStat
      simp [List.find?, h2, h3]
    · have hstf : (st.telegramId == tg) = false := by simpa using hst
      simp only [modifyEntry, hstf, Bool.false_eq_true, ite_false]
      by_cases hst2 : (st.telegramId == tg2) = true
      · unfold findStat
        simp [List.find?, hst2]
      · have hst2f : (st.telegramId == tg2) = false := by simpa using hst2
        unfold findStat at ih ⊢
        simp [List.find?, hst2f, ih]

/-- Appending one entry is only visible to a lookup when the key was absent
and matches the new entry. -/
theorem findStat_append_one (stats : List AdminStat) (x : AdminStat) (tg : Int) :
    findStat (stats ++ [x]) tg
      = match findStat stats tg with
        | some st => some st
        | none => if x.telegramId == tg then some x else none := by
  induction stats with
  | nil =>
    by_cases hx : (x.telegramId == tg) = true
    · simp only [List.nil_append, findStat]
      simp [List.find?, hx]
    · have hxf : (x.telegramId == tg) = false := by simpa using hx
      simp only [List.nil_append, findStat]
      simp [List.find?, hxf]
  | cons st rest ih =>
    by_cases hst : (st.telegramId == tg) = true
    · simp only [List.cons_append, findStat]
      simp [List.find?, hst]
    · have hstf : (st.telegramId == tg) = false := by simpa using hst
      simp only [List.cons_append, findStat] at ih ⊢
      simp only [List.find?, hstf]
      exact ih

/-- Effect of one admin shift-loop iteration on the lookup of a matching row's
key. -/
theorem findStat_processShiftRecord_match (day : Int) (stats : List AdminStat)
    (r : ShiftRow) (hdate : (r.rowDate == day) = true) :
    findStat (processShiftRecord day stats r) r.telegramId
      = some (addShiftTo ((findStat stats r.telegramId).getD
          (freshStat r.employeeName r.telegramId)) r) := by
  simp only [processShiftRecord, hdate, ite_true]
  rcases hfs : findStat stats r.telegramId with _ | st
  · simp only [hfs, Option.isSome_none, Bool.false_eq_true, ite_false]
    rw [findStat_modifyEntry_self _ _ _ (fun x => addShiftTo_telegramId x r),
      findStat_append_one, hfs]
    simp [freshStat]
  · simp only [hfs, Option.isSome_some, ite_true]
    rw [findStat_modifyEntry_self _ _ _ (fun x => addShiftTo_telegramId x r), hfs]
    rfl

/-- One admin shift-loop iteration leaves every other key untouched. -/
theorem findStat_processShiftRecord_nomatch (day : Int) (stats : List AdminStat)
    (r : ShiftRow) (tg : Int) (h : shiftRowMatches tg day r = false) :
    findStat (processShiftRecord day stats r) tg = findStat stats tg := by
  by_cases hdate : (r.rowDate == day) = true
  · have hkey : (r.telegramId == tg) = false := by
      have := h
      simp only [shiftRowMatches, hdate, Bool.true_and] at this
      exact this
    have hne : tg ≠ r.telegramId := fun he => by simp [he] at hkey
    simp only [processShiftRecord, hdate, ite_true]
    rw [findStat_modifyEntry_other _ _ _ _ (fun x => addShiftTo_telegramId x r) hne]
    rcases hfs : findStat stats r.telegramId with _ | st
    · simp only [hfs, Option.isSome_none, Bool.false_eq_true, ite_false]
      rw [findStat_append_one]
      rcases hft : findStat stats tg with _ | st2
      · simp [freshStat, hkey]
      · simp
    · simp [hfs]
  · have hdf : (r.rowDate == day) = false := by simpa using hdate
    simp [processShiftRecord, hdf]

/-- Effect of one admin operation-loop iteration on the lookup of a matching
row's key. -/
theorem findStat_processOpRecord_match (day : Int) (stats : List AdminStat)
    (r : OperationRow) (hdate : (r.rowDate == day) = true) :
    findStat (processOpRecord day stats r) r.telegramId
      = some (addOpTo ((findStat stats r.telegramId).getD
          (freshStat r.employeeName r.telegramId)) r) := by
  simp only [processOpRecord, hdate, ite_true]
  rcases hfs : findStat stats r.telegramId with _ | st
  · simp only [hfs, Option.isSome_none, Bool.false_eq_true, ite_false]
    rw [findStat_modifyEntry_self _ _ _ (fun x => addOpTo_telegramId x r),
      findStat_append_one, hfs]
    simp [freshStat]
  · simp only [hfs, Option.isSome_some, ite_true]
    rw [findStat_modifyEntry_self _ _ _ (fun x => addOpTo_telegramId x r), hfs]
    rfl

/-- One admin operation-loop iteration leaves every other key untouched. -/
theorem findStat_processOpRecord_nomatch (day : Int) (stats : List AdminStat)
    (r : OperationRow) (tg : Int) (h : opRowMatches tg day r = false) :
    findStat (processOpRecord day stats r) tg = findStat stats tg := by
  by_cases hdate : (r.rowDate == day) = true
  · have hkey : (r.telegramId == tg) = false := by
      have := h
      simp only [opRowMatches, hdate, Bool.true_and] at this
      exact this
    have hne : tg ≠ r.telegramId := fun he => by simp [he] at hkey
    simp only [processOpRecord, hdate, ite_true]
    rw [findStat_modifyEntry_other _ _ _ _ (fun x => addOpTo_telegramId x r) hne]
    rcases hfs : findStat stats r.telegramId with _ | st
    · simp only [hfs, Option.isSome_none, Bool.false_eq_true, ite_false]
      rw [findStat_append_one]
      rcases hft : findStat stats tg with _ | st2
      · simp [freshStat, hkey]
      · simp
    · simp [hfs]
  · have hdf : (r.rowDate == day) = false := by simpa using hdate
    simp [processOpRecord, hdf]

/-- The whole admin shift pass, viewed through the lookup of one key, is the
per-key replay of that employee's matching rows. -/
theorem shiftPass_findStat (day : Int) (rows : List ShiftRow) :
    ∀ (stats : List AdminStat) (tg : Int),
    findStat (rows.foldl (processShiftRecord day) stats) tg
      = applyShiftRows (findStat stats tg) (rows.filter (shiftRowMatches tg day)) := by
  induction rows with
  | nil => intro stats tg; simp [applyShiftRows]
  | cons r rs ih =>
    intro stats tg
    simp only [List.foldl_cons, List.filter_cons]
    by_cases hm : shiftRowMatches tg day r = true
    · have hdate : (r.rowDate == day) = true := by
        simp only [shiftRowMatches, Bool.and_eq_true] at hm
        exact hm.1
      have hkey : r.telegramId = tg := by
        simp only [shiftRowMatches, Bool.and_eq_true, beq_iff_eq] at hm
        exact hm.2
      rw [hm]
      simp only [ite_true]
      rw [ih (processShiftRecord day stats r) tg]
      subst hkey
      rw [findStat_processShiftRecord_match day stats r hdate]
      rfl
    · have hmf : shiftRowMatches tg day r = false := by simpa using hm
      rw [hmf]
      simp only [Bool.false_eq_true, ite_false]
      rw [ih (processShiftRecord day stats r) tg,
        findStat_processShiftRecord_nomatch day stats r tg hmf]

/-- The whole admin operation pass, viewed through the lookup of one key. -/
theorem opPass_findStat (day : Int) (rows : List OperationRow) :
    ∀ (stats : List AdminStat) (tg : Int),
    findStat (rows.foldl (processOpRecord day) stats) tg
      = applyOpRows (findStat stats tg) (rows.filter (opRowMatches tg day)) := by
  induction rows with
  | nil => intro stats tg; simp [applyOpRows]
  | cons r rs ih =>
    intro stats tg
    simp only [List.foldl_cons, List.filter_cons]
    by_cases hm : opRowMatches tg day r = true
    · have hdate : (r.rowDate == day) = true := by
        simp only [opRowMatches, Bool.and_eq_true] at hm
        exact hm.1
      have hkey : r.telegramId = tg := by
        simp only [opRowMatches, Bool.and_eq_true, beq_iff_eq] at hm
        exact hm.2
      rw [hm]
      simp only [ite_true]
      rw [ih (processOpRecord day stats r) tg]
      subst hkey
      rw [findStat_processOpRecord_match day stats r hdate]
      rfl
    · have hmf : opRowMatches tg day r = false := by simpa using hm
      rw [hmf]
      simp only [Bool.false_eq_true, ite_false]
      rw [ih (processOpRecord day stats r) tg,
        findStat_processOpRecord_nomatch day stats r tg hmf]

/-- Closed form of the per-key shift replay from a present entry: it adds the
recorded durations and the row count and touches nothing else. -/
theorem applyShiftRows_some (rows : List ShiftRow) :
    ∀ st : AdminStat,
    applyShiftRows (some st) rows
      = some { st with shiftMinutes := st.shiftMinutes + sumShiftDur rows
                       shiftCount := st.shiftCount + (rows.length : Int) } := by
  induction rows with
  | nil =>
    intro st
    cases st
    simp [applyShiftRows, sumShiftDur]
  | cons r rs ih =>
    intro st
    simp only [applyShiftRows, Option.getD_some]
    rw [ih (addShiftTo st r)]
    cases st
    simp [addShiftTo, sumShiftDur, List.length_cons]
    omega

/-- Closed form of the per-key operation replay from a present entry: it adds
the per-type unit and minute sums and touches nothing else. -/
theorem applyOpRows_some (rows : List OperationRow) :
    ∀ st : AdminStat,
    applyOpRows (some st) rows
      = some { st with fbsUnits := st.fbsUnits + sumQtyOfType fbsType rows
                       fbsMinutes := st.fbsMinutes + sumDurOfType fbsType rows
                       packUnits := st.packUnits + sumQtyOfType packType rows
                       packMinutes := st.packMinutes + sumDurOfType packType rows
                       otherMinutes := st.otherMinutes + sumDurOfType otherType rows } := by
  induction rows with
  | nil =>
    intro st
    cases st
    simp [applyOpRows, sumQtyOfType, sumDurOfType]
  | cons r rs ih =>
    intro st
    simp only [applyOpRows, Option.getD_some]
    rw [ih (addOpTo st r)]
    by_cases h1 : r.opType = fbsType
    · cases st
      simp [addOpTo, h1, sumQtyOfType, sumDurOfType, List.filter_cons, fbsType,
        packType, otherType]
      omega
    · by_cases h2 : r.opType = packType
      · cases st
        simp [addOpTo, h1, h2, sumQtyOfType, sumDurOfType, List.filter_cons, fbsType,
          packType, otherType]
        omega
      · by_cases h3 : r.opType = otherType
        · cases st
          simp [addOpTo, h1, h2, h3, sumQtyOfType, sumDurOfType, List.filter_cons,
            fbsType, packType, otherType]
          omega
        · cases st
          simp [addOpTo, h1, h2, h3, sumQtyOfType, sumDurOfType, List.filter_cons]

/-- The admin summary, viewed through the lookup of one employee, is exactly
the two per-key replays over that employee's matching rows. -/
theorem adminStats_char (s : Store) (day tg : Int) :
    findStat (buildAdminSummaryForDateC s day).2.employees tg
      = applyOpRows (applyShiftRows none (s.shifts.filter (shiftRowMatches tg day)))
          (s.operations.filter (opRowMatches tg day)) := by
  show findStat
      (s.operations.foldl (processOpRecord day) (s.shifts.foldl (processShiftRecord day) []))
      tg = _
  rw [opPass_findStat day s.operations (s.shifts.foldl (processShiftRecord day) []) tg,
    shiftPass_findStat day s.shifts [] tg]
  rfl

/-- Whenever a shift row is closed, or open with an empty start cell, the
employee summary uses its recorded duration cell, like the admin summary. -/
theorem effDur_eq_recorded (day : Int) (now : DateTime) (r : ShiftRow)
    (h : r.timeEnd = none → r.timeStart = none) :
    effectiveShiftDuration day now (shiftEntityOfRow day r) = shiftRowDur r := by
  simp only [effectiveShiftDuration, shiftEntityOfRow]
  rcases he : r.timeEnd with _ | v
  · have hs := h he
    simp [hs, shiftRowDur]
  · simp [shiftRowDur]

/-- C4 counterexample: for an employee with an open 09:00 shift seen at
10:00, the per-employee summary reports 60 shift minutes (elapsed time) while
the per-date admin summary reports 0 (the empty recorded-duration cell), so
the two folds do not produce the same shift-minute totals. -/
theorem C4_counterexample_open_shift :
    ((findStat (buildAdminSummaryForDateC
          ⟨[], [⟨0, "A", 1, some 540, none, none, ""⟩], []⟩ 0).2.employees 1).map
        (fun st => st.shiftMinutes))
      ≠ some ((buildEmployeeDailySummaryC
            ⟨[], [⟨0, "A", 1, some 540, none, none, ""⟩], []⟩ 1 0
            ⟨0, 36000⟩).2.totalShiftMinutes) ∧
    ((findStat (buildAdminSummaryForDateC
          ⟨[], [⟨0, "A", 1, some 540, none, none, ""⟩], []⟩ 0).2.employees 1).map
        (fun st => st.shiftMinutes)) = some 0 ∧
    (buildEmployeeDailySummaryC
        ⟨[], [⟨0, "A", 1, some 540, none, none, ""⟩], []⟩ 1 0
        ⟨0, 36000⟩).2.totalShiftMinutes = 60 := by
  refine ⟨by decide, by decide, by decide⟩

/-- C4 amended: for every employee with a matching Shift or Operation row on
the date, the admin summary holds an entry whose per-type operation totals
(units and minutes) always equal those of the per-employee summary, and whose
shift-minute total equals the per-employee one whenever no shift row of that
employee and date is open with a recorded start time — an open started shift
contributes elapsed time to the per-employee summary but only its empty
(hence 0) duration cell to the admin summary. -/
theorem C4_admin_matches_employee_fold (s : Store) (day : Int) (now : DateTime)
    (tg : Int)
    (hrow : s.shifts.filter (shiftRowMatches tg day) ≠ [] ∨
            s.operations.filter (opRowMatches tg day) ≠ []) :
    ∃ st, findStat (buildAdminSummaryForDateC s day).2.employees tg = some st ∧
      st.fbsUnits = (buildEmployeeDailySummaryC s tg day now).2.fbsUnits ∧
      st.fbsMinutes = (buildEmployeeDailySummaryC s tg day now).2.fbsMinutes ∧
      st.packUnits = (buildEmployeeDailySummaryC s tg day now).2.packUnits ∧
      st.packMinutes = (buildEmployeeDailySummaryC s tg day now).2.packMinutes ∧
      st.otherMinutes = (buildEmployeeDailySummaryC s tg day now).2.otherMinutes ∧
      ((∀ r ∈ s.shifts.filter (shiftRowMatches tg day),
          r.timeEnd = none → r.timeStart = none) →
        st.shiftMinutes
          = (buildEmployeeDailySummaryC s tg day now).2.totalShiftMinutes) := by
  have hEfbsU : (buildEmployeeDailySummaryC s tg day now).2.fbsUnits
      = sumQtyOfType fbsType (s.operations.filter (opRowMatches tg day)) := rfl
  have hEfbsM : (buildEmployeeDailySummaryC s tg day now).2.fbsMinutes
      = sumDurOfType fbsType (s.operations.filter (opRowMatches tg day)) := rfl
  have hEpackU : (buildEmployeeDailySummaryC s tg day now).2.packUnits
      = sumQtyOfType packType (s.operations.filter (opRowMatches tg day)) := rfl
  have hEpackM : (buildEmployeeDailySummaryC s tg day now).2.packMinutes
      = sumDurOfType packType (s.operations.filter (opRowMatches tg day)) := rfl
  have hEotherM : (buildEmployeeDailySummaryC s tg day now).2.otherMinutes
      = sumDurOfType otherType (s.operations.filter (opRowMatches tg day)) := rfl
  have hEtotal : (buildEmployeeDailySummaryC s tg day now).2.totalShiftMinutes
      = (((s.shifts.filter (shiftRowMatches tg day)).map (shiftEntityOfRow day)).map
          (effectiveShiftDuration day now)).sum := rfl
  have hchar := adminStats_char s day tg
  rcases hsf : s.shifts.filter (shiftRowMatches tg day) with _ | ⟨a, as⟩
  · rcases hof : s.operations.filter (opRowMatches tg day) with _ | ⟨b, bs⟩
    · rcases hrow with h | h
      · exact absurd hsf h
      · exact absurd hof h
    · rw [hsf, hof] at hchar
      have hstep : applyOpRows (applyShiftRows none ([] : List ShiftRow)) (b :: bs)
          = applyOpRows (some (freshStat b.employeeName b.telegramId)) (b :: bs) := rfl
      rw [hstep, applyOpRows_some] at hchar
      refine ⟨_, hchar, ?_, ?_, ?_, ?_, ?_, ?_⟩
      · rw [hEfbsU, hof]; simp [freshStat]
      · rw [hEfbsM, hof]; simp [freshStat]
      · rw [hEpackU, hof]; simp [freshStat]
      · rw [hEpackM, hof]; simp [freshStat]
      · rw [hEotherM, hof]; simp [freshStat]
      · intro _
        rw [hEtotal, hsf]
        simp [freshStat]
  · rw [hsf] at hchar
    have hstep : applyShiftRows none (a :: as)
        = applyShiftRows (some (freshStat a.employeeName a.telegramId)) (a :: as) := rfl
    rw [hstep, applyShiftRows_some, applyOpRows_some] at hchar
    refine ⟨_, hchar, ?_, ?_, ?_, ?_, ?_, ?_⟩
    · rw [hEfbsU]; simp [freshStat]
    · rw [hEfbsM]; simp [freshStat]
    · rw [hEpackU]; simp [freshStat]
    · rw [hEpackM]; simp [freshStat]
    · rw [hEotherM]; simp [freshStat]
    · intro hclosed
      have hcong : ((a :: as).map (shiftEntityOfRow day)).map
            (effectiveShiftDuration day now)
          = (a :: as).map shiftRowDur := by
        rw [List.map_map]
        exact List.map_congr_left (fun r hr => effDur_eq_recorded day now r (hclosed r hr))
      rw [hEtotal, hsf, hcong]
      show _ = sumShiftDur (a :: as)
      simp [freshStat]

/-- Witness for C4 at a store holding one closed shift and one FBS operation. -/
theorem C4_admin_matches_employee_fold_witness :
    ∃ st, findStat (buildAdminSummaryForDateC
        ⟨[], [⟨0, "A", 1, some 540, some 1020, some 480, ""⟩],
         [⟨0, "A", 1, "Сборка FBS", "X", some 10, some 545, some 565, some 20, ""⟩]⟩
        0).2.employees 1 = some st ∧
      st.fbsUnits = (buildEmployeeDailySummaryC
          ⟨[], [⟨0, "A", 1, some 540, some 1020, some 480, ""⟩],
           [⟨0, "A", 1, "Сборка FBS", "X", some 10, some 545, some 565, some 20, ""⟩]⟩
          1 0 ⟨0, 64800⟩).2.fbsUnits ∧
      st.fbsMinutes = (buildEmployeeDailySummaryC
          ⟨[], [⟨0, "A", 1, some 540, some 1020, some 480, ""⟩],
           [⟨0, "A", 1, "Сборка FBS", "X", some 10, some 545, some 565, some 20, ""⟩]⟩
          1 0 ⟨0, 64800⟩).2.fbsMinutes ∧
      st.packUnits = (buildEmployeeDailySummaryC
          ⟨[], [⟨0, "A", 1, some 540, some 1020, some 480, ""⟩],
           [⟨0, "A", 1, "Сборка FBS", "X", some 10, some 545, some 565, some 20, ""⟩]⟩
          1 0 ⟨0, 64800⟩).2.packUnits ∧
      st.packMinutes = (buildEmployeeDailySummaryC
          ⟨[], [⟨0, "A", 1, some 540, some 1020, some 480, ""⟩],
           [⟨0, "A", 1, "Сборка FBS", "X", some 10, some 545, some 565, some 20, ""⟩]⟩
          1 0 ⟨0, 64800⟩).2.packMinutes ∧
      st.otherMinutes = (buildEmployeeDailySummaryC
          ⟨[], [⟨0, "A", 1, some 540, some 1020, some 480, ""⟩],
           [⟨0, "A", 1, "Сборка FBS", "X", some 10, some 545, some 565, some 20, ""⟩]⟩
          1 0 ⟨0, 64800⟩).2.otherMinutes ∧
      ((∀ r ∈ (⟨[], [⟨0, "A", 1, some 540, some 1020, some 480, ""⟩],
           [⟨0, "A", 1, "Сборка FBS", "X", some 10, some 545, some 565, some 20, ""⟩]⟩ :
             Store).shifts.filter (shiftRowMatches 1 0),
          r.timeEnd = none → r.timeStart = none) →
        st.shiftMinutes = (buildEmployeeDailySummaryC
            ⟨[], [⟨0, "A", 1, some 540, some 1020, some 480, ""⟩],
             [⟨0, "A", 1, "Сборка FBS", "X", some 10, some 545, some 565, some 20, ""⟩]⟩
            1 0 ⟨0, 64800⟩).2.totalShiftMinutes) :=
  C4_admin_matches_employee_fold
    ⟨[], [⟨0, "A", 1, some 540, some 1020, some 480, ""⟩],
     [⟨0, "A", 1, "Сборка FBS", "X", some 10, some 545, some 565, some 20, ""⟩]⟩
    0 ⟨0, 64800⟩ 1 (Or.inl (by decide))

end WarehouseBot
